import Mathlib

/-!
Verification of the pdfdeal Doc2X client (NoEdgeAI/pdfdeal).

Shallow embedding of `src/pdfdeal/Doc2X/ConvertV2.py` (and, where the
repository code is not under `src/`, models written from the spec, marked
as such in their doc comments).  Network effects are made explicit: each
client function is a pure function of an environment record describing the
responses the remote service would give, and returns its outcome together
with the list of file/network operations it performed, in order.
-/

namespace Pdfdeal

/-- Error classes raised by the client.  `rateLimit`, `fileError`,
`requestError` mirror the exception classes `RateLimit`, `FileError`,
`RequestError` of `pdfdeal.Doc2X.Exception`; `valueError` mirrors Python's
builtin `ValueError`; `genericError` mirrors a bare `Exception`;
`retryExhausted` is the error surfaced by the transport retry policy when
its attempt budget is spent. -/
inductive Err where
  | rateLimit : Err
  | fileError (msg : String) : Err
  | requestError (msg : String) : Err
  | valueError (msg : String) : Err
  | genericError (msg : String) : Err
  | retryExhausted : Err
deriving DecidableEq, Repr

/-- The spec's "Input error (permanent, local)" class: missing/unreadable
file (`FileError`), unsupported target format (`ValueError`). -/
def Err.isInputError : Err → Bool
  | .fileError _ => true
  | .valueError _ => true
  | _ => false

/-- Modelled from the spec: the retry classification of the transport retry
policy (`async_retry` in `pdfdeal.Doc2X.Exception`, which is not under
`src/`).  Per spec §5/§7 the policy retries rate-limit (and transient)
failures only; permanent input errors and terminal business failures are
never retried. -/
def Err.retryable : Err → Bool
  | .rateLimit => true
  | _ => false

/-- File-system and network operations a client function can perform, in
the order it performs them. -/
inductive NetCall where
  | openFile : NetCall
  | parsePdf : NetCall
  | preupload : NetCall
  | s3Upload : NetCall
  | statusGet : NetCall
  | convertSubmit : NetCall
  | convertResult : NetCall
deriving DecidableEq, Repr

/-- Modelled from the spec: `code_check` of `pdfdeal.Doc2X.Exception` (not
under `src/`).  Per spec §6, a non-absent/non-success `code` in a JSON
envelope is interpreted via a shared error-code classification table and
the payload is not trusted; a service-reported failure embedded in a
success-status envelope is a non-retryable business error (spec §4.1/§7). -/
def code_check (code : Option String) : Except Err Unit :=
  match code with
  | none => Except.ok ()
  | some c => if c = "success" then Except.ok () else Except.error (Err.requestError c)

/-- Environment for the two upload functions: the local file's size and
readability, and the responses the three endpoints (direct parse,
pre-upload, object storage) would return. -/
structure UploadEnv where
  fileSize : Nat
  openOk : Bool
  directStatus : Nat
  directCode : Option String
  directUid : String
  directText : String
  preStatus : Nat
  preCode : Option String
  preUid : String
  preText : String
  s3Status : Nat
  s3Text : String
deriving DecidableEq, Repr

/-- `upload_pdf` of `ConvertV2.py`: direct upload of the file bytes to the
parse endpoint.  A file at or above 300 MB is rejected up front with
`RequestError("parse_file_too_large")`; the `logging.warning` and staged
fallback written after that unconditional `raise` are unreachable and are
therefore not part of the embedded behaviour.  On HTTP 200 the JSON
envelope's code is checked and the uid returned; 429 raises `RateLimit`,
400 raises `RequestError`, anything else a generic error. -/
def upload_pdf (env : UploadEnv) : Except Err String × List NetCall :=
  if 300 * 1024 * 1024 ≤ env.fileSize then
    (Except.error (Err.requestError "parse_file_too_large"), [])
  else if env.openOk = false then
    (Except.error (Err.fileError "Open file error!"), [NetCall.openFile])
  else
    let t := [NetCall.openFile, NetCall.parsePdf]
    if env.directStatus = 200 then
      match code_check env.directCode with
      | Except.error e => (Except.error e, t)
      | Except.ok _ => (Except.ok env.directUid, t)
    else if env.directStatus = 429 then
      (Except.error Err.rateLimit, t)
    else if env.directStatus = 400 then
      (Except.error (Err.requestError env.directText), t)
    else
      (Except.error (Err.genericError
        ("Upload file error! " ++ toString env.directStatus ++ ":" ++ env.directText)), t)

/-- `upload_pdf_big` of `ConvertV2.py`: staged upload via a pre-signed
object-storage destination.  A file below 100 MB is rejected with a
`FileError` before the file is opened and before any network request; then
the pre-upload endpoint is called, and on HTTP 200 (with a passing code
check) the file is posted to the returned destination, a 204 confirming
the server-chosen uid. -/
def upload_pdf_big (env : UploadEnv) : Except Err String × List NetCall :=
  if env.fileSize < 100 * 1024 * 1024 then
    (Except.error (Err.fileError "PDF file size should be bigger than 100MB!"), [])
  else if env.openOk = false then
    (Except.error (Err.fileError "Open file error!"), [NetCall.openFile])
  else
    let t := [NetCall.openFile, NetCall.preupload]
    if env.preStatus = 200 then
      match code_check env.preCode with
      | Except.error e => (Except.error e, t)
      | Except.ok _ =>
        if env.s3Status = 204 then
          (Except.ok env.preUid, t ++ [NetCall.s3Upload])
        else
          (Except.error (Err.requestError env.s3Text), t ++ [NetCall.s3Upload])
    else if env.preStatus = 400 then
      (Except.error (Err.requestError env.preText), t)
    else
      (Except.error (Err.genericError
        ("Upload file error! " ++ toString env.preStatus ++ ":" ++ env.preText)), t)

/-- Modelled from the spec: the upload orchestrator's size-based dispatch.
The high-level caller that chooses between the two upload functions is not
under `src/` (only the two functions it calls are).  Per spec §4.1, files
at or above the 100 MB staged-upload threshold use the staged path and
files below it use the direct path, the choice determined solely by file
size at time of call. -/
def upload_orchestrator (env : UploadEnv) : Except Err String × List NetCall :=
  if 100 * 1024 * 1024 ≤ env.fileSize then upload_pdf_big env else upload_pdf env

/-- One pass of Python's `re.sub` for the two patterns used in
`decode_data`: every (leftmost, non-overlapping) occurrence of a backslash
followed by a character of `ts` is replaced by `r`; all other characters
are copied.  `re.sub(r"\\[()]", "$", text)` is `subEscL ['(', ')'] ['$']`
on `text`'s characters, `re.sub(r"\\[\[\]]", "$$", text)` is
`subEscL ['[', ']'] ['$', '$']`. -/
def subEscL (ts r : List Char) : List Char → List Char
  | [] => []
  | [x] => [x]
  | x :: c :: rest =>
    if x == '\\' && ts.contains c then r ++ subEscL ts r rest
    else x :: subEscL ts r (c :: rest)

/-- Whether a character list contains an adjacent pair of a backslash
followed by a character of `ts`, i.e. an occurrence of the pattern
`subEscL ts r` rewrites. -/
def hasEsc (ts : List Char) : List Char → Bool
  | [] => false
  | [_] => false
  | x :: c :: rest => (x == '\\' && ts.contains c) || hasEsc ts (c :: rest)

/-- The escape-to-dollar rewrite of `decode_data` (`convert = True`): first
`re.sub(r"\\[()]", "$", text)`, then `re.sub(r"\\[\[\]]", "$$", ...)` on
its output. -/
def convertText (s : String) : String :=
  String.mk (subEscL ['[', ']'] ['$', '$'] (subEscL ['(', ')'] ['$'] s.toList))

/-- One entry of the service's raw page array.  Each field is `none` when
the corresponding key is absent from the page dict (the code reads every
field with `.get` and a default). -/
structure Page where
  md : Option String
  url : Option String
  page_idx : Option Int
  page_width : Option Int
  page_height : Option Int
deriving DecidableEq, Repr

/-- One decoded per-page metadata record, as built by `decode_data`. -/
structure Location where
  url : String
  page_idx : Int
  page_width : Int
  page_height : Int
deriving DecidableEq, Repr

/-- The part of the status response's `data` dict that `decode_data`
reads: `none` models a dict with no `"result"` key, `some none` a
`"result"` dict with no `"pages"` key, `some (some pages)` the embedded
page array. -/
structure StatusData where
  resultPages : Option (Option (List Page))
deriving DecidableEq, Repr

/-- `decode_data` of `ConvertV2.py`: with no `result.pages` structure it
logs a warning and returns two empty lists; otherwise each page yields its
`md` text (rewritten by `convertText` when `convert` is set) and a
metadata record with every field defaulted independently. -/
def decode_data (data : StatusData) (convert : Bool) : List String × List Location :=
  match data.resultPages with
  | none => ([], [])
  | some none => ([], [])
  | some (some pages) =>
    (pages.map fun page =>
      let text := page.md.getD ""
      if convert then convertText text else text,
     pages.map fun page =>
      { url := page.url.getD "",
        page_idx := page.page_idx.getD 0,
        page_width := page.page_width.getD 0,
        page_height := page.page_height.getD 0 })

/-- Environment for one status poll: the HTTP status, whether the body was
valid JSON, the envelope code, and the fields of the `data` dict
(`progress` and `status` are read with `.get` and a default; `resultPages`
is what `decode_data` will read). -/
structure StatusEnv where
  httpStatus : Nat
  jsonOk : Bool
  code : Option String
  progress : Option Int
  status : Option String
  resultPages : Option (Option (List Page))
  text : String
deriving DecidableEq, Repr

/-- `uid_status` of `ConvertV2.py`: one status poll.  Non-200 or a
non-JSON body is a generic error; after the envelope code check,
"processing" returns the reported progress with label "Processing file",
"success" forces progress 100, label "Success" and decodes the page array,
"failed" raises `RequestError`, and any other status is passed through
with a warning and empty result lists. -/
def uid_status (env : StatusEnv) (convert : Bool) :
    Except Err (Int × String × List String × List Location) × List NetCall :=
  let t := [NetCall.statusGet]
  if env.httpStatus ≠ 200 then
    (Except.error (Err.genericError
      ("Get status error! " ++ toString env.httpStatus ++ ":" ++ env.text)), t)
  else if env.jsonOk = false then
    (Except.error (Err.genericError
      ("Get status error with JSON decode failure! " ++
        toString env.httpStatus ++ ":" ++ env.text)), t)
  else
    match code_check env.code with
    | Except.error e => (Except.error e, t)
    | Except.ok _ =>
      let progress := env.progress.getD 0
      let status := env.status.getD ""
      if status = "processing" then
        (Except.ok (progress, "Processing file", [], []), t)
      else if status = "success" then
        let dec := decode_data ⟨env.resultPages⟩ convert
        (Except.ok (100, "Success", dec.1, dec.2), t)
      else if status = "failed" then
        (Except.error (Err.requestError ("Failed to deal with file! " ++ env.text)), t)
      else
        (Except.ok (progress, status, [], []), t)

/-- Environment for the two conversion calls: HTTP status, JSON validity,
the `data.status` field (`none` models a missing key, which in Python
raises a `KeyError`), the optional `data.url` field, the `str(data)`
rendering used in error messages, and the raw response text. -/
structure ConvertEnv where
  httpStatus : Nat
  jsonOk : Bool
  status : Option String
  url : Option String
  dataRepr : String
  text : String
deriving DecidableEq, Repr

/-- `convert_parse` of `ConvertV2.py`: requests conversion of a parsed
file.  An export format outside md|tex|docx raises `ValueError` before any
network call; then one POST is made, non-200 is a generic failure, and the
response's status yields ("Processing", "") / ("Success", url, the url
defaulting to "") / a `RequestError` naming the uid and the raw data. -/
def convert_parse (env : ConvertEnv) (uid : String) (fmt : String) :
    Except Err (String × String) × List NetCall :=
  if (["md", "tex", "docx"].contains fmt) = false then
    (Except.error (Err.valueError
      "Invalid export format. Supported formats are: md, tex, docx"), [])
  else
    let t := [NetCall.convertSubmit]
    if env.httpStatus ≠ 200 then
      (Except.error (Err.genericError
        ("Conversion request failed: " ++ toString env.httpStatus ++ ":" ++ env.text)), t)
    else if env.jsonOk = false then
      (Except.error (Err.genericError "Conversion request failed: JSON decode failure"), t)
    else
      match env.status with
      | none => (Except.error (Err.genericError "KeyError: status"), t)
      | some s =>
        if s = "processing" then
          (Except.ok ("Processing", ""), t)
        else if s = "success" then
          (Except.ok ("Success", env.url.getD ""), t)
        else
          (Except.error (Err.requestError
            ("Conversion uid " ++ uid ++ " file failed: " ++ env.dataRepr)), t)

/-- `get_convert_result` of `ConvertV2.py`: fetches the result of a
conversion task with one GET; the outcome analysis mirrors
`convert_parse` (processing / success with defaulted url / `RequestError`
naming the uid and the raw data). -/
def get_convert_result (env : ConvertEnv) (uid : String) :
    Except Err (String × String) × List NetCall :=
  let t := [NetCall.convertResult]
  if env.httpStatus ≠ 200 then
    (Except.error (Err.genericError
      ("Get conversion result failed: " ++ toString env.httpStatus ++ ":" ++ env.text)), t)
  else if env.jsonOk = false then
    (Except.error (Err.genericError "Get conversion result failed: JSON decode failure"), t)
  else
    match env.status with
    | none => (Except.error (Err.genericError "KeyError: status"), t)
    | some s =>
      if s = "processing" then
        (Except.ok ("Processing", ""), t)
      else if s = "success" then
        (Except.ok ("Success", env.url.getD ""), t)
      else
        (Except.error (Err.requestError
          ("Get conversion result for uid " ++ uid ++ " failed: " ++ env.dataRepr)), t)

/-- Modelled from the spec: the transport retry policy (`async_retry` of
`pdfdeal.Doc2X.Exception`, not under `src/`).  Per spec §5/§7 it applies
bounded retry with backoff to retryable (rate-limit/transient) failures,
never retries permanent errors, and surfaces a retry-exhausted error when
the attempt budget is spent.  `op i` is the outcome of the i-th attempt of
the wrapped operation; the result is paired with the number of attempts
actually made, starting from attempt index `i` with `fuel` attempts left. -/
def async_retry (op : Nat → Except Err α) : Nat → Nat → Except Err α × Nat
  | i, 0 => (Except.error Err.retryExhausted, i)
  | i, fuel + 1 =>
    match op i with
    | Except.ok a => (Except.ok a, i + 1)
    | Except.error e =>
      if e.retryable then async_retry op (i + 1) fuel else (Except.error e, i + 1)

/-! ## Helper lemmas -/

/-- Replacement of one pattern occurrence: if `a` contains no occurrence of
the pattern (no backslash followed by a character of `ts`), and `c` is a
pattern character, then rewriting `a ++ '\\' :: c :: b` copies `a`,
replaces the occurrence by `r`, and continues on `b`. -/
lemma subEscL_append_esc (ts r : List Char) (c : Char) (hc : ts.contains c = true)
    (hbs : ts.contains '\\' = false) (a : List Char) :
    ∀ b : List Char, hasEsc ts a = false →
      subEscL ts r (a ++ '\\' :: c :: b) = a ++ r ++ subEscL ts r b := by
  have hc' : c ∈ ts := by simpa using hc
  have hbs' : '\\' ∉ ts := by simpa using hbs
  induction a with
  | nil => intro b _; simp [subEscL, hc']
  | cons x a' ih =>
    intro b ha
    cases a' with
    | nil => simp [subEscL, hbs', hc']
    | cons y a'' =>
      simp only [hasEsc, Bool.or_eq_false_iff] at ha
      have hthis := ih b ha.2
      simp only [List.cons_append, List.append_assoc] at hthis ⊢
      simp only [subEscL, ha.1, Bool.false_eq_true, if_false]
      rw [hthis]

/-- The attempt counter of the retry policy never goes below its starting
index. -/
lemma async_retry_start_le (op : Nat → Except Err α) (i fuel : Nat) :
    i ≤ (async_retry op i fuel).2 := by
  induction fuel generalizing i with
  | zero => simp [async_retry]
  | succ n ih =>
    cases hop : op i with
    | ok a => simp [async_retry, hop]
    | error e =>
      by_cases hr : e.retryable
      · simp only [async_retry, hop, hr, if_true]
        exact le_trans (Nat.le_succ i) (ih (i + 1))
      · simp [async_retry, hop, hr]

/-- The retry policy makes at most `fuel` further attempts. -/
lemma async_retry_bounded (op : Nat → Except Err α) (i fuel : Nat) :
    (async_retry op i fuel).2 ≤ i + fuel := by
  induction fuel generalizing i with
  | zero => simp [async_retry]
  | succ n ih =>
    cases hop : op i with
    | ok a => simp [async_retry, hop]
    | error e =>
      by_cases hr : e.retryable
      · simp only [async_retry, hop, hr, if_true]
        calc (async_retry op (i + 1) n).2 ≤ (i + 1) + n := ih (i + 1)
          _ = i + (n + 1) := by omega
      · simp [async_retry, hop, hr]

/-- With at least one attempt of fuel, the retry policy makes at least one
attempt. -/
lemma async_retry_makes_attempt (op : Nat → Except Err α) (i n : Nat) :
    i + 1 ≤ (async_retry op i (n + 1)).2 := by
  cases hop : op i with
  | ok a => simp [async_retry, hop]
  | error e =>
    by_cases hr : e.retryable
    · simp only [async_retry, hop, hr, if_true]
      exact async_retry_start_le op (i + 1) n
    · simp [async_retry, hop, hr]

/-- A first attempt failing with a non-retryable error stops the policy at
exactly one attempt, whatever budget remains. -/
lemma async_retry_not_retryable (op : Nat → Except Err α) (e : Err)
    (h : op 0 = Except.error e) (hr : e.retryable = false) (n : Nat) :
    async_retry op 0 (n + 1) = (Except.error e, 1) := by
  simp [async_retry, h, hr]

/-- Under sustained rate-limiting the retry policy spends its whole budget
and surfaces the retry-exhausted error. -/
lemma async_retry_exhausts (op : Nat → Except Err α)
    (h : ∀ j, op j = Except.error Err.rateLimit) (i fuel : Nat) :
    async_retry op i fuel = (Except.error Err.retryExhausted, i + fuel) := by
  induction fuel generalizing i with
  | zero => simp [async_retry]
  | succ n ih =>
    simp only [async_retry, h i, Err.retryable, if_true]
    rw [ih (i + 1)]
    congr 1
    omega

/-- Given a readable file of admissible size, the direct uploader opens
the file and makes exactly its one parse-endpoint call, whatever the
response. -/
lemma upload_pdf_trace (env : UploadEnv) (hsz : ¬ 300 * 1024 * 1024 ≤ env.fileSize)
    (ho : env.openOk = true) :
    (upload_pdf env).2 = [NetCall.openFile, NetCall.parsePdf] := by
  simp only [upload_pdf, if_neg hsz, ho, Bool.true_eq_false, if_false]
  split
  · split <;> rfl
  · split
    · rfl
    · split <;> rfl

/-- Given a readable file of admissible size, the staged uploader opens
the file, makes exactly one pre-upload call, and at most one
object-storage call, whatever the responses. -/
lemma upload_pdf_big_trace (env : UploadEnv) (hsz : ¬ env.fileSize < 100 * 1024 * 1024)
    (ho : env.openOk = true) :
    (upload_pdf_big env).2 = [NetCall.openFile, NetCall.preupload] ∨
    (upload_pdf_big env).2 =
      [NetCall.openFile, NetCall.preupload, NetCall.s3Upload] := by
  simp only [upload_pdf_big, if_neg hsz, ho, Bool.true_eq_false, if_false]
  split
  · split
    · left; rfl
    · split
      · right; rfl
      · right; rfl
  · split
    · left; rfl
    · left; rfl

/-! ## Claim theorems -/

/-- C2: evaluating `upload_pdf` at a file of exactly 300 MB (the absolute
ceiling): the upload fails immediately with zero file/network operations —
in particular the staged-path fallback written after the `raise` is never
reached — but the error raised is `RequestError("parse_file_too_large")`,
the business/request class, not the input-error class (`FileError`) that
the claim, the spec's error taxonomy (§7) and the function's own docstring
("FileError: Input file size is too large") call for. -/
theorem C2_oversize_rejection_eval :
    upload_pdf
      ⟨300 * 1024 * 1024, true, 200, none, "uid", "", 200, none, "uid", "", 204, ""⟩ =
      (Except.error (Err.requestError "parse_file_too_large"), []) ∧
    Err.isInputError (Err.requestError "parse_file_too_large") = false ∧
    Err.retryable (Err.requestError "parse_file_too_large") = false := by
  refine ⟨?_, rfl, rfl⟩
  rfl

/-- C6: decoding a response with no `result` key, or a `result` with no
`pages` key, yields `([], [])`; the decoder is a total function, so no
exception can be raised. -/
theorem C6_decode_missing_pages (r : Option (Option (List Page))) (convert : Bool)
    (h : r = none ∨ r = some none) :
    decode_data ⟨r⟩ convert = ([], []) := by
  rcases h with rfl | rfl <;> rfl

/-- Witness for C6 at a concrete input. -/
theorem C6_decode_missing_pages_witness :
    decode_data ⟨none⟩ true = ([], []) :=
  C6_decode_missing_pages none true (Or.inl rfl)

/-- C7: requesting conversion with a format outside md|tex|docx fails with
a `ValueError` and an empty operation trace (the network-call counter
stays at zero); the error is in the local input-error class, distinct from
every network-failure class, and is not retryable. -/
theorem C7_invalid_format_is_local (env : ConvertEnv) (uid fmt : String)
    (h : (["md", "tex", "docx"].contains fmt) = false) :
    convert_parse env uid fmt =
      (Except.error (Err.valueError
        "Invalid export format. Supported formats are: md, tex, docx"), []) ∧
    Err.isInputError (Err.valueError
      "Invalid export format. Supported formats are: md, tex, docx") = true ∧
    Err.retryable (Err.valueError
      "Invalid export format. Supported formats are: md, tex, docx") = false := by
  refine ⟨?_, rfl, rfl⟩
  unfold convert_parse
  rw [if_pos h]

/-- Witness for C7 at a concrete input. -/
theorem C7_invalid_format_is_local_witness :
    convert_parse ⟨200, true, some "success", some "http://x", "d", "t"⟩ "uid1" "pdf" =
      (Except.error (Err.valueError
        "Invalid export format. Supported formats are: md, tex, docx"), []) ∧
    Err.isInputError (Err.valueError
      "Invalid export format. Supported formats are: md, tex, docx") = true ∧
    Err.retryable (Err.valueError
      "Invalid export format. Supported formats are: md, tex, docx") = false :=
  C7_invalid_format_is_local ⟨200, true, some "success", some "http://x", "d", "t"⟩
    "uid1" "pdf" (by decide)

/-- C10: the staged uploader rejects every file below 100 MB with a
`FileError`, with an empty operation trace: the file is not opened and no
network request is issued, so the staged path's lower size bound is a
precondition enforced before any effect. -/
theorem C10_big_upload_lower_bound (env : UploadEnv)
    (h : env.fileSize < 100 * 1024 * 1024) :
    upload_pdf_big env =
      (Except.error (Err.fileError "PDF file size should be bigger than 100MB!"), []) ∧
    Err.isInputError (Err.fileError "PDF file size should be bigger than 100MB!") = true := by
  refine ⟨?_, rfl⟩
  simp [upload_pdf_big, h]

/-- Witness for C10 at a concrete input. -/
theorem C10_big_upload_lower_bound_witness :
    upload_pdf_big ⟨52428800, true, 200, none, "uid", "", 200, none, "uid", "", 204, ""⟩ =
      (Except.error (Err.fileError "PDF file size should be bigger than 100MB!"), []) ∧
    Err.isInputError (Err.fileError "PDF file size should be bigger than 100MB!") = true :=
  C10_big_upload_lower_bound
    ⟨52428800, true, 200, none, "uid", "", 200, none, "uid", "", 204, ""⟩ (by decide)

/-- C3: for every well-formed status-poll response whose service state is
"success", the poller returns progress 100 and label "Success" — whatever
progress value the raw response carries — and the returned text and
metadata lists are exactly what the result decoder produces from the
embedded page array. -/
theorem C3_success_poll_forces_100 (env : StatusEnv) (convert : Bool)
    (h200 : env.httpStatus = 200) (hjson : env.jsonOk = true)
    (hcode : code_check env.code = Except.ok ())
    (hs : env.status = some "success") :
    (uid_status env convert).1 =
      Except.ok (100, "Success",
        (decode_data ⟨env.resultPages⟩ convert).1,
        (decode_data ⟨env.resultPages⟩ convert).2) := by
  simp [uid_status, h200, hjson, hcode, hs]

/-- Witness for C3 at a concrete input whose raw progress is 37, forced to
100 in the returned snapshot. -/
theorem C3_success_poll_forces_100_witness :
    (uid_status ⟨200, true, none, some 37, some "success",
        some (some [⟨some "hi", some "u", some 0, some 10, some 20⟩]), "raw"⟩ true).1 =
      Except.ok (100, "Success",
        (decode_data ⟨some (some [⟨some "hi", some "u", some 0, some 10, some 20⟩])⟩ true).1,
        (decode_data ⟨some (some [⟨some "hi", some "u", some 0, some 10, some 20⟩])⟩ true).2) :=
  C3_success_poll_forces_100
    ⟨200, true, none, some 37, some "success",
      some (some [⟨some "hi", some "u", some 0, some 10, some 20⟩]), "raw"⟩
    true rfl rfl rfl rfl

/-- C4: for every well-formed status-poll response whose service state is
"failed", the poller raises `RequestError` — so no
(progress, label, texts, locations) tuple is returned — and that error is
not in the retryable class. -/
theorem C4_failed_poll_raises (env : StatusEnv) (convert : Bool)
    (h200 : env.httpStatus = 200) (hjson : env.jsonOk = true)
    (hcode : code_check env.code = Except.ok ())
    (hs : env.status = some "failed") :
    (uid_status env convert).1 =
      Except.error (Err.requestError ("Failed to deal with file! " ++ env.text)) ∧
    Err.retryable (Err.requestError ("Failed to deal with file! " ++ env.text)) = false := by
  refine ⟨?_, rfl⟩
  simp [uid_status, h200, hjson, hcode, hs]

/-- Witness for C4 at a concrete input. -/
theorem C4_failed_poll_raises_witness :
    (uid_status ⟨200, true, none, some 50, some "failed", none, "raw"⟩ false).1 =
      Except.error (Err.requestError ("Failed to deal with file! " ++ "raw")) ∧
    Err.retryable (Err.requestError ("Failed to deal with file! " ++ "raw")) = false :=
  C4_failed_poll_raises ⟨200, true, none, some 50, some "failed", none, "raw"⟩
    false rfl rfl rfl rfl

/-- C1: for every readable file at or above the 100 MB staged-upload
threshold (and below the 300 MB ceiling) the orchestrator performs exactly
one pre-upload (staged-path) call and never calls the direct parse
endpoint; for every readable file below the threshold it calls the direct
parse endpoint and touches neither staged-path endpoint. -/
theorem C1_size_based_path_selection (env : UploadEnv) (hopen : env.openOk = true) :
    (100 * 1024 * 1024 ≤ env.fileSize → env.fileSize < 300 * 1024 * 1024 →
      ((upload_orchestrator env).2.count NetCall.preupload = 1 ∧
        NetCall.parsePdf ∉ (upload_orchestrator env).2)) ∧
    (env.fileSize < 100 * 1024 * 1024 →
      (NetCall.parsePdf ∈ (upload_orchestrator env).2 ∧
        NetCall.preupload ∉ (upload_orchestrator env).2 ∧
        NetCall.s3Upload ∉ (upload_orchestrator env).2)) := by
  constructor
  · intro hlo _
    have hdisp : upload_orchestrator env = upload_pdf_big env := by
      simp [upload_orchestrator, hlo]
    rw [hdisp]
    rcases upload_pdf_big_trace env (Nat.not_lt.2 hlo) hopen with htr | htr <;>
      rw [htr] <;> exact ⟨by rfl, by decide⟩
  · intro hhi
    have hdisp : upload_orchestrator env = upload_pdf env := by
      simp [upload_orchestrator, Nat.not_le.2 hhi]
    rw [hdisp]
    have htr := upload_pdf_trace env (by omega) hopen
    rw [htr]
    exact ⟨by decide, by decide, by decide⟩

/-- Witness for C1: a 150 MB file goes through the staged path only, a
10 MB file through the direct path only. -/
theorem C1_size_based_path_selection_witness :
    ((100 * 1024 * 1024 ≤ (157286400 : Nat) → (157286400 : Nat) < 300 * 1024 * 1024 →
      ((upload_orchestrator
          ⟨157286400, true, 200, none, "uid", "", 200, none, "uid", "", 204, ""⟩).2.count
            NetCall.preupload = 1 ∧
        NetCall.parsePdf ∉ (upload_orchestrator
          ⟨157286400, true, 200, none, "uid", "", 200, none, "uid", "", 204, ""⟩).2)) ∧
    ((157286400 : Nat) < 100 * 1024 * 1024 →
      (NetCall.parsePdf ∈ (upload_orchestrator
          ⟨157286400, true, 200, none, "uid", "", 200, none, "uid", "", 204, ""⟩).2 ∧
        NetCall.preupload ∉ (upload_orchestrator
          ⟨157286400, true, 200, none, "uid", "", 200, none, "uid", "", 204, ""⟩).2 ∧
        NetCall.s3Upload ∉ (upload_orchestrator
          ⟨157286400, true, 200, none, "uid", "", 200, none, "uid", "", 204, ""⟩).2))) ∧
    ((100 * 1024 * 1024 ≤ (10485760 : Nat) → (10485760 : Nat) < 300 * 1024 * 1024 →
      ((upload_orchestrator
          ⟨10485760, true, 200, none, "uid", "", 200, none, "uid", "", 204, ""⟩).2.count
            NetCall.preupload = 1 ∧
        NetCall.parsePdf ∉ (upload_orchestrator
          ⟨10485760, true, 200, none, "uid", "", 200, none, "uid", "", 204, ""⟩).2)) ∧
    ((10485760 : Nat) < 100 * 1024 * 1024 →
      (NetCall.parsePdf ∈ (upload_orchestrator
          ⟨10485760, true, 200, none, "uid", "", 200, none, "uid", "", 204, ""⟩).2 ∧
        NetCall.preupload ∉ (upload_orchestrator
          ⟨10485760, true, 200, none, "uid", "", 200, none, "uid", "", 204, ""⟩).2 ∧
        NetCall.s3Upload ∉ (upload_orchestrator
          ⟨10485760, true, 200, none, "uid", "", 200, none, "uid", "", 204, ""⟩).2))) :=
  ⟨C1_size_based_path_selection
      ⟨157286400, true, 200, none, "uid", "", 200, none, "uid", "", 204, ""⟩ rfl,
    C1_size_based_path_selection
      ⟨10485760, true, 200, none, "uid", "", 200, none, "uid", "", 204, ""⟩ rfl⟩

/-- C8 counterexample: a well-formed "success" response that carries no
`url` field makes both the request-conversion call and the
fetch-conversion-result call return an EMPTY artifact location (the code
reads the url with `.get("url", "")`), refuting the claim that a "success"
service state returns a non-empty artifact location. -/
theorem C8_success_empty_location_cex :
    (convert_parse ⟨200, true, some "success", none, "{}", ""⟩ "uid9" "md").1 =
      Except.ok ("Success", "") ∧
    (get_convert_result ⟨200, true, some "success", none, "{}", ""⟩ "uid9").1 =
      Except.ok ("Success", "") := by
  exact ⟨rfl, rfl⟩

/-- C8 (amended): for both conversion calls the outcome is tri-state:
"processing" returns an empty location, "success" returns the location
taken from the response's `url` field — defaulting to the empty string
when the field is absent, non-emptiness is not enforced — and any other
state raises a non-retryable `RequestError` reporting the uid and the raw
response. -/
theorem C8_tristate_amended (env : ConvertEnv) (uid fmt : String)
    (hfmt : (["md", "tex", "docx"].contains fmt) = true)
    (h200 : env.httpStatus = 200) (hjson : env.jsonOk = true) :
    (env.status = some "processing" →
      (convert_parse env uid fmt).1 = Except.ok ("Processing", "") ∧
      (get_convert_result env uid).1 = Except.ok ("Processing", "")) ∧
    (env.status = some "success" →
      (convert_parse env uid fmt).1 = Except.ok ("Success", env.url.getD "") ∧
      (get_convert_result env uid).1 = Except.ok ("Success", env.url.getD "")) ∧
    (∀ s, env.status = some s → s ≠ "processing" → s ≠ "success" →
      (convert_parse env uid fmt).1 =
        Except.error (Err.requestError
          ("Conversion uid " ++ uid ++ " file failed: " ++ env.dataRepr)) ∧
      (get_convert_result env uid).1 =
        Except.error (Err.requestError
          ("Get conversion result for uid " ++ uid ++ " failed: " ++ env.dataRepr)) ∧
      Err.retryable (Err.requestError
        ("Conversion uid " ++ uid ++ " file failed: " ++ env.dataRepr)) = false ∧
      Err.retryable (Err.requestError
        ("Get conversion result for uid " ++ uid ++ " failed: " ++ env.dataRepr)) = false) := by
  refine ⟨?_, ?_, ?_⟩
  · intro hs
    constructor
    · unfold convert_parse
      rw [if_neg (by rw [hfmt]; simp)]
      simp [h200, hjson, hs]
    · simp [get_convert_result, h200, hjson, hs]
  · intro hs
    constructor
    · unfold convert_parse
      rw [if_neg (by rw [hfmt]; simp)]
      simp [h200, hjson, hs]
    · simp [get_convert_result, h200, hjson, hs]
  · intro s hs hp hsc
    refine ⟨?_, ?_, rfl, rfl⟩
    · unfold convert_parse
      rw [if_neg (by rw [hfmt]; simp)]
      simp [h200, hjson, hs, hp, hsc]
    · simp [get_convert_result, h200, hjson, hs, hp, hsc]

/-- Witness for the amended C8 at a concrete "failed" response. -/
theorem C8_tristate_amended_witness :
    ((some "failed" : Option String) = some "processing" →
      (convert_parse ⟨200, true, some "failed", none, "{failed}", ""⟩ "uid7" "md").1 =
        Except.ok ("Processing", "") ∧
      (get_convert_result ⟨200, true, some "failed", none, "{failed}", ""⟩ "uid7").1 =
        Except.ok ("Processing", "")) ∧
    ((some "failed" : Option String) = some "success" →
      (convert_parse ⟨200, true, some "failed", none, "{failed}", ""⟩ "uid7" "md").1 =
        Except.ok ("Success", (none : Option String).getD "") ∧
      (get_convert_result ⟨200, true, some "failed", none, "{failed}", ""⟩ "uid7").1 =
        Except.ok ("Success", (none : Option String).getD "")) ∧
    (∀ s, (some "failed" : Option String) = some s → s ≠ "processing" → s ≠ "success" →
      (convert_parse ⟨200, true, some "failed", none, "{failed}", ""⟩ "uid7" "md").1 =
        Except.error (Err.requestError
          ("Conversion uid " ++ "uid7" ++ " file failed: " ++ "{failed}")) ∧
      (get_convert_result ⟨200, true, some "failed", none, "{failed}", ""⟩ "uid7").1 =
        Except.error (Err.requestError
          ("Get conversion result for uid " ++ "uid7" ++ " failed: " ++ "{failed}")) ∧
      Err.retryable (Err.requestError
        ("Conversion uid " ++ "uid7" ++ " file failed: " ++ "{failed}")) = false ∧
      Err.retryable (Err.requestError
        ("Get conversion result for uid " ++ "uid7" ++ " failed: " ++ "{failed}")) = false) :=
  C8_tristate_amended ⟨200, true, some "failed", none, "{failed}", ""⟩ "uid7" "md"
    (by decide) rfl rfl

/-- C5: the decoder applies the escape rewrite uniformly to every page's
text when the flag is enabled and returns every page's text unchanged when
it is disabled; and the rewrite replaces every occurrence of the
escaped-parenthesis convention (`\(` or `\)`, the regex `\\[()]`) by a
single dollar sign and every occurrence of the escaped-bracket convention
(`\[` or `\]`, the regex `\\[\[\]]`) by a double dollar sign.  Each
occurrence statement is shown for an occurrence after a prefix `a` free of
that pass's own pattern only — the prefix may contain occurrences of the
other pass's pattern — with the rest of the text rewritten the same
way. -/
theorem C5_escape_rewrite (pages : List Page) (a b : List Char) :
    (decode_data ⟨some (some pages)⟩ true).1 =
      pages.map (fun p => convertText (p.md.getD "")) ∧
    (decode_data ⟨some (some pages)⟩ false).1 =
      pages.map (fun p => p.md.getD "") ∧
    (hasEsc ['(', ')'] a = false →
      subEscL ['(', ')'] ['$'] (a ++ '\\' :: '(' :: b) =
        a ++ '$' :: subEscL ['(', ')'] ['$'] b ∧
      subEscL ['(', ')'] ['$'] (a ++ '\\' :: ')' :: b) =
        a ++ '$' :: subEscL ['(', ')'] ['$'] b) ∧
    (hasEsc ['[', ']'] a = false →
      subEscL ['[', ']'] ['$', '$'] (a ++ '\\' :: '[' :: b) =
        a ++ '$' :: '$' :: subEscL ['[', ']'] ['$', '$'] b ∧
      subEscL ['[', ']'] ['$', '$'] (a ++ '\\' :: ']' :: b) =
        a ++ '$' :: '$' :: subEscL ['[', ']'] ['$', '$'] b) := by
  refine ⟨rfl, rfl, fun hp => ⟨?_, ?_⟩, fun hb => ⟨?_, ?_⟩⟩
  · simpa using subEscL_append_esc ['(', ')'] ['$'] '(' (by decide) (by decide) a b hp
  · simpa using subEscL_append_esc ['(', ')'] ['$'] ')' (by decide) (by decide) a b hp
  · simpa using subEscL_append_esc ['[', ']'] ['$', '$'] '[' (by decide) (by decide) a b hb
  · simpa using subEscL_append_esc ['[', ']'] ['$', '$'] ']' (by decide) (by decide) a b hb

/-- Witness for C5 at a concrete page list and a concrete occurrence
context whose prefix `"\["` contains a bracket escape: the
paren-replacement part applies to it all the same. -/
theorem C5_escape_rewrite_witness :
    (decode_data ⟨some (some [⟨some "\\[y\\]\\(x\\)", none, none, none, none⟩])⟩ true).1 =
      ([⟨some "\\[y\\]\\(x\\)", none, none, none, none⟩] : List Page).map
        (fun p => convertText (p.md.getD "")) ∧
    (decode_data ⟨some (some [⟨some "\\[y\\]\\(x\\)", none, none, none, none⟩])⟩ false).1 =
      ([⟨some "\\[y\\]\\(x\\)", none, none, none, none⟩] : List Page).map
        (fun p => p.md.getD "") ∧
    (hasEsc ['(', ')'] ['\\', '['] = false →
      subEscL ['(', ')'] ['$'] (['\\', '['] ++ '\\' :: '(' :: ['y']) =
        ['\\', '['] ++ '$' :: subEscL ['(', ')'] ['$'] ['y'] ∧
      subEscL ['(', ')'] ['$'] (['\\', '['] ++ '\\' :: ')' :: ['y']) =
        ['\\', '['] ++ '$' :: subEscL ['(', ')'] ['$'] ['y']) ∧
    (hasEsc ['[', ']'] ['\\', '['] = false →
      subEscL ['[', ']'] ['$', '$'] (['\\', '['] ++ '\\' :: '[' :: ['y']) =
        ['\\', '['] ++ '$' :: '$' :: subEscL ['[', ']'] ['$', '$'] ['y'] ∧
      subEscL ['[', ']'] ['$', '$'] (['\\', '['] ++ '\\' :: ']' :: ['y']) =
        ['\\', '['] ++ '$' :: '$' :: subEscL ['[', ']'] ['$', '$'] ['y']) :=
  C5_escape_rewrite [⟨some "\\[y\\]\\(x\\)", none, none, none, none⟩] ['\\', '['] ['y']

/-- C9 counterexample: the status poller is one of the operations wrapped
by the transport retry policy, but it maps an HTTP 429 response to a bare
generic exception (`ConvertV2.py` lines 187-190), which the policy does
not classify as retryable: with a budget of three attempts, exactly one
attempt is made and zero retries occur, refuting the claim that a
rate-limit response triggers at least one retry on every wrapped
operation. -/
theorem C9_429_no_retry_cex :
    (uid_status ⟨429, true, none, some 0, some "processing", none, "busy"⟩ false).1 =
      Except.error (Err.genericError
        ("Get status error! " ++ toString (429 : Nat) ++ ":" ++ "busy")) ∧
    Err.retryable (Err.genericError
      ("Get status error! " ++ toString (429 : Nat) ++ ":" ++ "busy")) = false ∧
    async_retry
      (fun _ => (uid_status ⟨429, true, none, some 0, some "processing", none, "busy"⟩
        false).1) 0 3 =
      (Except.error (Err.genericError
        ("Get status error! " ++ toString (429 : Nat) ++ ":" ++ "busy")), 1) := by
  exact ⟨rfl, rfl, rfl⟩

/-- C9 (amended): only the direct-upload operation classifies HTTP 429 as
the retryable rate-limit error; for it the transport retry policy
(modelled from the spec) makes at least one retry, its attempt count is
bounded by the finite budget `m`, and sustained rate-limiting exhausts the
budget and surfaces the retry-exhausted error rather than retrying
forever.  The other wrapped operations — the staged uploader, the status
poller and the two conversion calls — map HTTP 429 to a generic
non-retryable failure, so a rate-limit response there stops the policy at
exactly one attempt with zero retries. -/
theorem C9_rate_limit_retry_amended (envs : Nat → UploadEnv) (m : Nat)
    (henv : ∀ i, (envs i).fileSize < 300 * 1024 * 1024 ∧
      (envs i).openOk = true ∧ (envs i).directStatus = 429)
    (hm : 2 ≤ m)
    (envB : UploadEnv) (hBsz : ¬ envB.fileSize < 100 * 1024 * 1024)
    (hBo : envB.openOk = true) (hB429 : envB.preStatus = 429)
    (envS : StatusEnv) (hS429 : envS.httpStatus = 429)
    (envC : ConvertEnv) (hC429 : envC.httpStatus = 429)
    (uid fmt : String) (hfmt : (["md", "tex", "docx"].contains fmt) = true) :
    (∀ i, (upload_pdf (envs i)).1 = Except.error Err.rateLimit) ∧
    Err.retryable Err.rateLimit = true ∧
    2 ≤ (async_retry (fun i => (upload_pdf (envs i)).1) 0 m).2 ∧
    (async_retry (fun i => (upload_pdf (envs i)).1) 0 m).2 ≤ m ∧
    (async_retry (fun i => (upload_pdf (envs i)).1) 0 m).1 =
      Except.error Err.retryExhausted ∧
    (upload_pdf_big envB).1 = Except.error (Err.genericError
      ("Upload file error! " ++ toString envB.preStatus ++ ":" ++ envB.preText)) ∧
    (uid_status envS false).1 = Except.error (Err.genericError
      ("Get status error! " ++ toString envS.httpStatus ++ ":" ++ envS.text)) ∧
    (convert_parse envC uid fmt).1 = Except.error (Err.genericError
      ("Conversion request failed: " ++ toString envC.httpStatus ++ ":" ++ envC.text)) ∧
    (get_convert_result envC uid).1 = Except.error (Err.genericError
      ("Get conversion result failed: " ++ toString envC.httpStatus ++ ":" ++ envC.text)) ∧
    async_retry (fun _ => (upload_pdf_big envB).1) 0 m =
      (Except.error (Err.genericError
        ("Upload file error! " ++ toString envB.preStatus ++ ":" ++ envB.preText)), 1) ∧
    async_retry (fun _ => (uid_status envS false).1) 0 m =
      (Except.error (Err.genericError
        ("Get status error! " ++ toString envS.httpStatus ++ ":" ++ envS.text)), 1) ∧
    async_retry (fun _ => (convert_parse envC uid fmt).1) 0 m =
      (Except.error (Err.genericError
        ("Conversion request failed: " ++ toString envC.httpStatus ++ ":" ++ envC.text)), 1) ∧
    async_retry (fun _ => (get_convert_result envC uid).1) 0 m =
      (Except.error (Err.genericError
        ("Get conversion result failed: " ++ toString envC.httpStatus ++ ":" ++ envC.text)), 1) := by
  have hop : ∀ i, (upload_pdf (envs i)).1 = Except.error Err.rateLimit := by
    intro i
    obtain ⟨hsz, ho, h429⟩ := henv i
    simp [upload_pdf, Nat.not_le.2 hsz, ho, h429]
  have hB : (upload_pdf_big envB).1 = Except.error (Err.genericError
      ("Upload file error! " ++ toString envB.preStatus ++ ":" ++ envB.preText)) := by
    simp [upload_pdf_big, hBsz, hBo, hB429]
  have hS : (uid_status envS false).1 = Except.error (Err.genericError
      ("Get status error! " ++ toString envS.httpStatus ++ ":" ++ envS.text)) := by
    simp [uid_status, hS429]
  have hC1 : (convert_parse envC uid fmt).1 = Except.error (Err.genericError
      ("Conversion request failed: " ++ toString envC.httpStatus ++ ":" ++ envC.text)) := by
    unfold convert_parse
    rw [if_neg (by rw [hfmt]; simp)]
    simp [hC429]
  have hC2 : (get_convert_result envC uid).1 = Except.error (Err.genericError
      ("Get conversion result failed: " ++ toString envC.httpStatus ++ ":" ++ envC.text)) := by
    simp [get_convert_result, hC429]
  obtain ⟨n, hmn⟩ : ∃ n, m = n + 1 := ⟨m - 1, by omega⟩
  refine ⟨hop, rfl, ?_, ?_, ?_, hB, hS, hC1, hC2, ?_, ?_, ?_, ?_⟩
  · obtain ⟨k, rfl⟩ : ∃ k, m = k + 2 := ⟨m - 2, by omega⟩
    have hstep : async_retry (fun i => (upload_pdf (envs i)).1) 0 (k + 2) =
        async_retry (fun i => (upload_pdf (envs i)).1) 1 (k + 1) := by
      simp [async_retry, hop 0, Err.retryable]
    rw [hstep]
    exact async_retry_makes_attempt (fun i => (upload_pdf (envs i)).1) 1 k
  · simpa using async_retry_bounded (fun i => (upload_pdf (envs i)).1) 0 m
  · rw [async_retry_exhausts (fun i => (upload_pdf (envs i)).1) hop 0 m]
  · rw [hmn]; exact async_retry_not_retryable _ _ hB (by rfl) n
  · rw [hmn]; exact async_retry_not_retryable _ _ hS (by rfl) n
  · rw [hmn]; exact async_retry_not_retryable _ _ hC1 (by rfl) n
  · rw [hmn]; exact async_retry_not_retryable _ _ hC2 (by rfl) n

/-- Witness for the amended C9: a constant 429-answering direct-upload
environment with a budget of three attempts, and concrete 429 responses
for the staged uploader, the status poller and the two conversion
calls. -/
theorem C9_rate_limit_retry_amended_witness :
    (∀ i, (upload_pdf ((fun _ : Nat =>
        (⟨1000, true, 429, none, "uid", "", 200, none, "uid", "", 204, ""⟩ : UploadEnv)) i)).1 =
      Except.error Err.rateLimit) ∧
    Err.retryable Err.rateLimit = true ∧
    2 ≤ (async_retry (fun i => (upload_pdf ((fun _ : Nat =>
        (⟨1000, true, 429, none, "uid", "", 200, none, "uid", "", 204, ""⟩ : UploadEnv)) i)).1)
      0 3).2 ∧
    (async_retry (fun i => (upload_pdf ((fun _ : Nat =>
        (⟨1000, true, 429, none, "uid", "", 200, none, "uid", "", 204, ""⟩ : UploadEnv)) i)).1)
      0 3).2 ≤ 3 ∧
    (async_retry (fun i => (upload_pdf ((fun _ : Nat =>
        (⟨1000, true, 429, none, "uid", "", 200, none, "uid", "", 204, ""⟩ : UploadEnv)) i)).1)
      0 3).1 = Except.error Err.retryExhausted ∧
    (upload_pdf_big
        (⟨209715200, true, 200, none, "uid", "", 429, none, "uid", "busy", 204, ""⟩ :
          UploadEnv)).1 =
      Except.error (Err.genericError
        ("Upload file error! " ++ toString (429 : Nat) ++ ":" ++ "busy")) ∧
    (uid_status (⟨429, true, none, some 0, some "processing", none, "limit"⟩ : StatusEnv)
        false).1 =
      Except.error (Err.genericError
        ("Get status error! " ++ toString (429 : Nat) ++ ":" ++ "limit")) ∧
    (convert_parse (⟨429, true, some "processing", none, "{}", "limit"⟩ : ConvertEnv)
        "u1" "md").1 =
      Except.error (Err.genericError
        ("Conversion request failed: " ++ toString (429 : Nat) ++ ":" ++ "limit")) ∧
    (get_convert_result (⟨429, true, some "processing", none, "{}", "limit"⟩ : ConvertEnv)
        "u1").1 =
      Except.error (Err.genericError
        ("Get conversion result failed: " ++ toString (429 : Nat) ++ ":" ++ "limit")) ∧
    async_retry (fun _ => (upload_pdf_big
        (⟨209715200, true, 200, none, "uid", "", 429, none, "uid", "busy", 204, ""⟩ :
          UploadEnv)).1) 0 3 =
      (Except.error (Err.genericError
        ("Upload file error! " ++ toString (429 : Nat) ++ ":" ++ "busy")), 1) ∧
    async_retry (fun _ => (uid_status
        (⟨429, true, none, some 0, some "processing", none, "limit"⟩ : StatusEnv) false).1)
      0 3 =
      (Except.error (Err.genericError
        ("Get status error! " ++ toString (429 : Nat) ++ ":" ++ "limit")), 1) ∧
    async_retry (fun _ => (convert_parse
        (⟨429, true, some "processing", none, "{}", "limit"⟩ : ConvertEnv) "u1" "md").1)
      0 3 =
      (Except.error (Err.genericError
        ("Conversion request failed: " ++ toString (429 : Nat) ++ ":" ++ "limit")), 1) ∧
    async_retry (fun _ => (get_convert_result
        (⟨429, true, some "processing", none, "{}", "limit"⟩ : ConvertEnv) "u1").1) 0 3 =
      (Except.error (Err.genericError
        ("Get conversion result failed: " ++ toString (429 : Nat) ++ ":" ++ "limit")), 1) :=
  C9_rate_limit_retry_amended
    (fun _ : Nat => (⟨1000, true, 429, none, "uid", "", 200, none, "uid", "", 204, ""⟩ :
      UploadEnv))
    3 (fun _ => ⟨by show (1000 : Nat) < 300 * 1024 * 1024; decide, rfl, rfl⟩) (by decide)
    (⟨209715200, true, 200, none, "uid", "", 429, none, "uid", "busy", 204, ""⟩ : UploadEnv)
    (by decide) rfl rfl
    (⟨429, true, none, some 0, some "processing", none, "limit"⟩ : StatusEnv) rfl
    (⟨429, true, some "processing", none, "{}", "limit"⟩ : ConvertEnv) rfl
    "u1" "md" (by decide)

end Pdfdeal
